import Mathlib

/-!
Verification development for the multimodal vector-database service
(`vector_db.py`, `vector_db_qdrant.py`, `main.py`, `config.py`,
`amazon_scraper.py`).  The Python modules are shallowly embedded: pure
request/response shaping becomes Lean functions, the stateful Qdrant
in-memory store becomes explicit state passing, exceptions become
`Except` values, and external collaborators (the embedding model, HTTP
image fetches, the Milvus client, the connection oracle) become explicit
function parameters.  Floating-point vectors are modelled over `ℚ`.
-/

/-- Embedding vectors (`List[float]` in the source, modelled over `ℚ`). -/
abbrev Vec := List ℚ

/-- The exception classes observable in the repository, plus the two classes
the specification names (`DimensionError`, Python's builtin
`ConnectionError`) so that their absence from the code paths can be stated.
`vectorDBError` is the repository's own class (defined in both
`vector_db.py` and `vector_db_qdrant.py`); `httpException` is FastAPI's
carrier of an HTTP status; `typeError` models Python's `TypeError`;
`backendError` models an uncaught exception escaping a handler. -/
inductive PyErr where
  | vectorDBError (msg : String)
  | httpException (status : Nat) (detail : String)
  | typeError (msg : String)
  | backendError (msg : String)
  | connectionError (msg : String)
  | dimensionError (expected actual : Nat)
deriving DecidableEq

/-- Whether an exception is a `DimensionError` (the class the spec names). -/
def PyErr.isDimensionError : PyErr → Bool
  | .dimensionError _ _ => true
  | _ => false

/-- Whether an exception is Python's builtin `ConnectionError`. -/
def PyErr.isConnectionError : PyErr → Bool
  | .connectionError _ => true
  | _ => false

/-- A Python point/document id: Qdrant accepts integers or UUID strings. -/
inductive PyId where
  | int (n : Int)
  | str (s : String)
deriving DecidableEq

/-- Python truthiness of an id value: `0` and `""` are falsy. -/
def PyId.falsy : PyId → Bool
  | .int n => n == 0
  | .str s => s == ""

/-- Truthiness of `doc.get("id")`: a missing key (`None`) is falsy. -/
def idFalsy : Option PyId → Bool
  | none => true
  | some i => i.falsy

/-- Input dict for `QdrantVectorDB.insert`: keys `id` (optional), `vector`,
`text`, `metadata` (optional, defaulted to `{}` by `doc.get`). -/
structure QDoc where
  id : Option PyId := none
  vector : Vec
  text : String
  metadata : Option (List (String × String)) := none
deriving DecidableEq

/-- `models.PointStruct(id=..., vector=..., payload={"text":..., "metadata":...})`. -/
structure PointStruct where
  id : PyId
  vector : Vec
  payload_text : String
  payload_metadata : List (String × String)
deriving DecidableEq

/-- `doc.get("id") or idx` from `vector_db_qdrant.py` line 61: a missing or
falsy id is replaced by the zero-based batch position. -/
def resolveId (doc : QDoc) (idx : Nat) : PyId :=
  match doc.id with
  | none => .int idx
  | some i => if i.falsy then .int idx else i

/-- The `PointStruct` built for the document at batch position `idx`. -/
def mkPoint (doc : QDoc) (idx : Nat) : PointStruct :=
  { id := resolveId doc idx
    vector := doc.vector
    payload_text := doc.text
    payload_metadata := doc.metadata.getD [] }

/-- The point list built by the comprehension over `enumerate(documents)`
(`vector_db_qdrant.py` lines 59-69), with `k` the position of the first
document. -/
def buildPoints : Nat → List QDoc → List PointStruct
  | _, [] => []
  | k, doc :: rest => mkPoint doc k :: buildPoints (k + 1) rest

/-- Upsert of a single point into the backend store: a point whose id is
already present overwrites the stored record, otherwise it is appended. -/
def upsertPoint (store : List PointStruct) (p : PointStruct) : List PointStruct :=
  if store.any (fun q => q.id == p.id) then
    store.map (fun q => if q.id == p.id then p else q)
  else
    store ++ [p]

/-- Upsert of a batch, point by point, in batch order. -/
def upsertPoints (store : List PointStruct) (ps : List PointStruct) : List PointStruct :=
  ps.foldl upsertPoint store

/-- Retrieve the stored point with the given id, if any. -/
def findById (store : List PointStruct) (i : PyId) : Option PointStruct :=
  store.find? (fun q => q.id == i)

/-- The message the in-memory Qdrant backend produces when a vector's
length does not match the collection's configured size. -/
def dimErrMsg (expected actual : Nat) : String :=
  "Vector dimension error: expected dim: " ++ toString expected ++
    ", got " ++ toString actual

/-- Model of the in-memory Qdrant collection held by `QdrantVectorDB`
(`vector_db_qdrant.py`): the configured name, the configured vector size
(default 512, cosine distance), and the stored points. -/
structure QdrantVectorDB where
  collection_name : String := "document_search"
  vector_size : Nat := 512
  store : List PointStruct := []
deriving DecidableEq

/-- Model of `client.upsert` of the in-memory Qdrant backend: each point's
vector is validated against the collection size; a mismatch is rejected
(naming expected vs actual length) and nothing is written, otherwise the
whole batch is upserted. -/
def qdrantUpsert (size : Nat) (store : List PointStruct) (ps : List PointStruct) :
    Except String (List PointStruct) :=
  match ps.find? (fun p => p.vector.length != size) with
  | some p => .error (dimErrMsg size p.vector.length)
  | none => .ok (upsertPoints store ps)

/-- `QdrantVectorDB.insert` (`vector_db_qdrant.py` lines 56-78): builds the
points with `doc.get("id") or idx` ids, upserts them, and wraps any
backend failure in the repository's `VectorDBError`. -/
def QdrantVectorDB.insert (db : QdrantVectorDB) (documents : List QDoc) :
    Except PyErr QdrantVectorDB :=
  match qdrantUpsert db.vector_size db.store (buildPoints 0 documents) with
  | .error e => .error (.vectorDBError ("Insert operation failed: " ++ e))
  | .ok st => .ok { db with store := st }

/-- A hit as shaped by `QdrantVectorDB.search` (`vector_db_qdrant.py` lines
46-51): exactly the keys `text`, `metadata`, `score`, `id`. -/
structure Hit where
  text : String
  metadata : List (String × String)
  score : ℚ
  id : PyId
deriving DecidableEq

/-- The dict built from one scored hit. -/
def toHit (x : PointStruct × ℚ) : Hit :=
  { text := x.1.payload_text
    metadata := x.1.payload_metadata
    score := x.2
    id := x.1.id }

/-- Scored points, ordered by descending score by the backend. -/
abbrev Scored := PointStruct × ℚ

/-- The backend's ranking order: earlier hits have a score at least as
large as later ones. -/
def scoreGe (a b : Scored) : Prop := b.2 ≤ a.2

instance : DecidableRel scoreGe := fun a b => inferInstanceAs (Decidable (b.2 ≤ a.2))

instance : IsTotal Scored scoreGe := ⟨fun a b => le_total b.2 a.2⟩

instance : IsTrans Scored scoreGe := ⟨fun _ _ _ hab hbc => le_trans hbc hab⟩

/-- `QdrantVectorDB.search` (`vector_db_qdrant.py` lines 37-54): the
backend validates the query vector's length against the collection size
(rejecting a mismatch before anything else), scores every stored point
with the similarity function `sim` (cosine in the source; the numeric
kernel is external and therefore a parameter), returns at most `top_k`
hits in descending-score order, and the wrapper shapes each hit into the
four-key dict, wrapping backend failures in `VectorDBError`. -/
def QdrantVectorDB.search (db : QdrantVectorDB) (sim : Vec → Vec → ℚ)
    (query_embedding : Vec) (top_k : Nat := 5) : Except PyErr (List Hit) :=
  if query_embedding.length ≠ db.vector_size then
    .error (.vectorDBError ("Search operation failed: " ++
      dimErrMsg db.vector_size query_embedding.length))
  else
    .ok (((((db.store.map (fun p => (p, sim query_embedding p.vector)))).insertionSort
      scoreGe).take top_k).map toHit)

/-- `client.count(...)` result wrapped by `QdrantVectorDB.health_check`
(`vector_db_qdrant.py` lines 80-99): structured stats on success. -/
structure CollectionStats where
  name : String
  exists_ : Bool
  count : Nat
deriving DecidableEq

/-- The structured status returned by `health_check`. -/
structure HealthStatus where
  status : String
  collection_stats : Option CollectionStats := none
  error : Option String := none
deriving DecidableEq

/-- `QdrantVectorDB.health_check`: probes the backend count (outcome given
by `countResult`); every failure is caught and degraded to an `unhealthy`
status carrying the failure's message — the function is total, it never
raises. -/
def QdrantVectorDB.health_check (db : QdrantVectorDB)
    (countResult : Except String Nat) : HealthStatus :=
  match countResult with
  | .ok n =>
    { status := "healthy"
      collection_stats := some { name := db.collection_name, exists_ := true, count := n } }
  | .error e => { status := "unhealthy", error := some e }

/-! ### Milvus configuration and collection setup (`config.py`, `vector_db.py`) -/

/-- A Python value appearing in the parameter dicts built by `config.py`. -/
inductive PyVal where
  | str (s : String)
  | int (n : Int)
  | dict (entries : List (String × PyVal))

/-- The `[index_params]` section of `config.ini`: `metric_type`,
`index_type`, `nlist`. -/
structure IndexSection where
  metric_type : String
  index_type : String
  nlist : Int

/-- The `[search_params]` section of `config.ini`: `metric_type`, `nprobe`. -/
structure SearchSection where
  metric_type : String
  nprobe : Int

/-- `MilvusConfig.get_index_params` (`config.py` lines 76-87): the dict
`{"metric_type": ..., "index_type": ..., "params": {"nlist": ...}}`. -/
def get_index_params (c : IndexSection) : List (String × PyVal) :=
  [("metric_type", .str c.metric_type),
   ("index_type", .str c.index_type),
   ("params", .dict [("nlist", .int c.nlist)])]

/-- `MilvusConfig.get_search_params` (`config.py` lines 89-99): the dict
`{"metric_type": ..., "params": {"nprobe": ...}}`. -/
def get_search_params (c : SearchSection) : List (String × PyVal) :=
  [("metric_type", .str c.metric_type),
   ("params", .dict [("nprobe", .int c.nprobe)])]

/-- One `collection.create_index(field_name=..., index_params=...)` call. -/
structure CreateIndexCall where
  field_name : String
  index_params : List (String × PyVal)

/-- The `create_index` calls issued by `VectorDBService._setup_collection`
(`vector_db.py` lines 80-93): none when the collection already exists;
when it is absent, the `text_embedding` index is created with
`get_index_params()` and the `image_embedding` index with
`get_search_params()` (the source passes the search-parameter dict). -/
def setup_collection_indexes (idx : IndexSection) (srch : SearchSection)
    (collectionExists : Bool) : List CreateIndexCall :=
  if collectionExists then []
  else
    [{ field_name := "text_embedding", index_params := get_index_params idx },
     { field_name := "image_embedding", index_params := get_search_params srch }]

/-- The keyword dict `VectorDBService.search` passes to
`collection.search` (`vector_db.py` lines 111-117). -/
structure MilvusSearchParams where
  data : List Vec
  anns_field : String
  limit : Nat
  output_fields : List String

/-- `VectorDBService.search` builds its search request with the vector
field hard-coded to `"text_embedding"`; there is no modality parameter. -/
def searchParamsDict (query_embedding : Vec) (top_k : Nat) : MilvusSearchParams :=
  { data := [query_embedding]
    anns_field := "text_embedding"
    limit := top_k
    output_fields := ["text", "metadata"] }

/-! ### Connection retry (`vector_db.py` lines 30-46) -/

/-- The pymilvus connection registry state for the `default` alias. -/
structure MilvusConnState where
  connected : Bool := false
deriving DecidableEq

/-- Model of `pymilvus.connections.connect` (external library): connecting
an alias that is already connected with the same URI and token is a no-op;
otherwise the outcome of the `k`-th fresh connection attempt is given by
the oracle (`.ok` = session established, `.error` = transient failure). -/
def milvusConnect (oracle : Nat → Except String Unit) (st : MilvusConnState)
    (k : Nat) : Except String MilvusConnState :=
  if st.connected then .ok st
  else
    match oracle k with
    | .ok _ => .ok { connected := true }
    | .error e => .error e

/-- One execution of the body of `_connect_with_retry`: a failure of
`connections.connect` is wrapped in the repository's `VectorDBError`. -/
def connectOnceWrapped (oracle : Nat → Except String Unit) (st : MilvusConnState)
    (k : Nat) : Except PyErr MilvusConnState :=
  match milvusConnect oracle st k with
  | .ok st' => .ok st'
  | .error e => .error (.vectorDBError ("Connection failed: " ++ e))

/-- Observable trace of a `_connect_with_retry` call: the final outcome,
how many attempts were made, and the backoff waits slept between attempts. -/
structure RetryTrace where
  result : Except PyErr MilvusConnState
  attempts : Nat
  waits : List Nat

/-- The `backoff.expo` wait generator (base 2): the wait before retrying
after the `k`-th failed attempt, jitter aside. -/
def backoffExpo (k : Nat) : Nat := 2 ^ k

/-- The retry loop of `@backoff.on_exception(backoff.expo, Exception,
max_tries=n)`: attempt `k` runs the decorated body; on failure, if tries
remain, wait `backoffExpo k` and retry, otherwise re-raise the last
exception. -/
def retryLoop (oracle : Nat → Except String Unit) (st : MilvusConnState) :
    Nat → Nat → RetryTrace
  | _, 0 => { result := .error (.vectorDBError "backoff exhausted"), attempts := 0, waits := [] }
  | k, fuel + 1 =>
    match connectOnceWrapped oracle st k with
    | .ok st' => { result := .ok st', attempts := 1, waits := [] }
    | .error e =>
      if fuel = 0 then { result := .error e, attempts := 1, waits := [] }
      else
        let t := retryLoop oracle st (k + 1) fuel
        { result := t.result, attempts := t.attempts + 1, waits := backoffExpo k :: t.waits }

/-- `VectorDBService._connect_with_retry` (`vector_db.py` lines 30-46):
the decorated body under `max_tries=3`. -/
def connect_with_retry (oracle : Nat → Except String Unit) (st : MilvusConnState) :
    RetryTrace :=
  retryLoop oracle st 0 3

/-! ### FastAPI handlers (`main.py`) and the scraper fallback
(`amazon_scraper.py`) -/

/-- The `/search` request body (`main.py` lines 40-43). -/
structure SearchRequest where
  query : Option String := none
  image_url : Option String := none
  top_k : Nat := 5

/-- Python truthiness of an optional string: `None` and `""` are falsy. -/
def optStrTruthy : Option String → Bool
  | none => false
  | some s => !(s == "")

/-- The keyword parameters accepted by `VectorDBService.search`
(`vector_db.py` line 109): `query_embedding` and `top_k` only. -/
def vectorDBSearchKeywords : List String := ["query_embedding", "top_k"]

/-- The keyword names the `/search` handler passes at its call sites
(`main.py` lines 51 and 55): `top_k=...` and `search_type=...`. -/
def searchCallKwargs : List String := ["top_k", "search_type"]

/-- Python call semantics for keyword arguments: a keyword not among the
callee's parameters raises `TypeError` before the body runs. -/
def invokeWithKwargs (accepted passed : List String) (body : Except PyErr α) :
    Except PyErr α :=
  match passed.find? (fun k => !(accepted.contains k)) with
  | some k => .error (.typeError ("search() got an unexpected keyword argument " ++ k))
  | none => body

/-- `get_image_embedding` in `main.py` (lines 64-75): fetching and
embedding the image is modelled by `fetch`; any failure is turned into an
`HTTPException` with status 400. -/
def mainGetImageEmbedding (fetch : String → Except String Vec)
    (image_url : String) : Except PyErr Vec :=
  match fetch image_url with
  | .ok emb => .ok emb
  | .error e => .error (.httpException 400 ("Image processing failed: " ++ e))

/-- The `try` body of the `/search` handler (`main.py` lines 47-59):
a truthy `query` takes the text path, else a truthy `image_url` takes the
image path, else an `HTTPException(400)` is raised; both search paths call
`vector_db.search` with the `search_type` keyword. `dbSearch` stands for
what `VectorDBService.search` would return if the call were accepted. -/
def searchBody (encode : String → Vec) (fetch : String → Except String Vec)
    (dbSearch : Vec → Nat → Except PyErr (List Hit)) (r : SearchRequest) :
    Except PyErr (List Hit) :=
  if optStrTruthy r.query then
    invokeWithKwargs vectorDBSearchKeywords searchCallKwargs
      (dbSearch (encode (r.query.getD "")) r.top_k)
  else if optStrTruthy r.image_url then
    match mainGetImageEmbedding fetch (r.image_url.getD "") with
    | .error e => .error e
    | .ok emb =>
      invokeWithKwargs vectorDBSearchKeywords searchCallKwargs (dbSearch emb r.top_k)
  else
    .error (.httpException 400 "Either query or image_url must be provided")

/-- The `/search` handler (`main.py` lines 45-62): `except Exception`
catches every exception raised in the body — including the handler's own
`HTTPException(400)` and the 400 raised by `get_image_embedding` — and
replaces it with `HTTPException(500, "Search failed")`. -/
def searchEndpoint (encode : String → Vec) (fetch : String → Except String Vec)
    (dbSearch : Vec → Nat → Except PyErr (List Hit)) (r : SearchRequest) :
    Except PyErr (List Hit) :=
  match searchBody encode fetch dbSearch r with
  | .ok v => .ok v
  | .error _ => .error (.httpException 500 "Search failed")

/-- The `/documents` request body (`main.py` lines 34-38). -/
structure InDocument where
  text : String
  text_embedding : Option Vec := none
  image_embedding : Option Vec := none
  metadata : Option (List (String × String)) := none

/-- Python truthiness of an optional list: `None` and `[]` are falsy. -/
def listTruthy : Option Vec → Bool
  | none => false
  | some v => !(v.isEmpty)

/-- Python truthiness of the optional metadata dict. -/
def metaTruthy : Option (List (String × String)) → Bool
  | none => false
  | some m => !(m.isEmpty)

/-- The dict inserted into the Milvus collection by `add_document`. -/
structure MilvusDoc where
  text : String
  text_embedding : Vec
  image_embedding : Option Vec
  metadata : Option (List (String × String))
deriving DecidableEq

/-- The document built by `add_document` (`main.py` lines 79-93):
`document.text_embedding or embedder.encode(document.text)` — a falsy
(absent or empty) supplied embedding is discarded and recomputed from the
text — and the `metadata` key is added only when truthy. -/
def addDocumentDoc (encode : String → Vec) (d : InDocument) : MilvusDoc :=
  { text := d.text
    text_embedding :=
      if listTruthy d.text_embedding then d.text_embedding.getD [] else encode d.text
    image_embedding := d.image_embedding
    metadata := if metaTruthy d.metadata then d.metadata else none }

/-- The `/documents` handler (`main.py` lines 77-100): builds the document,
inserts it (outcome of `collection.insert` given by `milvusInsert`), and
maps any exception to `HTTPException(500)`. -/
def addDocumentEndpoint (encode : String → Vec)
    (milvusInsert : MilvusDoc → Except String Unit) (d : InDocument) :
    Except PyErr String :=
  match milvusInsert (addDocumentDoc encode d) with
  | .ok _ => .ok "success"
  | .error e => .error (.httpException 500 ("Document insertion failed: " ++ e))

/-- The `/health` handler (`main.py` lines 102-111): probes
`utility.has_collection` and `collection.num_entities` with no exception
handling, so a probe failure propagates out of the handler; on success it
always reports `"healthy"`. -/
def healthEndpoint (collName : String) (hasColl : Except String Bool)
    (numEntities : Except String Nat) : Except PyErr HealthStatus :=
  match hasColl with
  | .error e => .error (.backendError e)
  | .ok b =>
    if b then
      match numEntities with
      | .error e => .error (.backendError e)
      | .ok n =>
        .ok { status := "healthy"
              collection_stats := some { name := collName, exists_ := true, count := n } }
    else
      .ok { status := "healthy"
            collection_stats := some { name := collName, exists_ := false, count := 0 } }

/-- `get_image_embedding` in `amazon_scraper.py` (lines 25-44): a falsy
(empty) URL yields the 512-length zero vector; a fetch/inference failure
is caught and yields the zero vector; an embedding of unexpected length
raises `ValueError` inside the same `try` and is likewise caught. -/
def amazonGetImageEmbedding (fetch : String → Except String Vec)
    (image_url : String) : Vec :=
  if image_url = "" then List.replicate 512 0
  else
    match fetch image_url with
    | .error _ => List.replicate 512 0
    | .ok emb => if emb.length != 512 then List.replicate 512 0 else emb

/-! ### Concrete fixtures used by witnesses and counterexamples -/

/-- A concrete embedding function (stand-in for the SentenceTransformer). -/
def encodeEx : String → Vec := fun _ => [1, 0]

/-- A concrete image fetch-and-embed that succeeds. -/
def fetchOk : String → Except String Vec := fun _ => .ok [1, 0]

/-- A concrete image fetch-and-embed that fails. -/
def fetchFail : String → Except String Vec := fun _ => .error "connection refused"

/-- A concrete stand-in for an accepted `VectorDBService.search` call. -/
def dbSearchEx : Vec → Nat → Except PyErr (List Hit) := fun _ _ => .ok []

/-- A concrete similarity function. -/
def simEx : Vec → Vec → ℚ := fun _ _ => 0

/-- A stored point for the search fixtures. -/
def pEx : PointStruct :=
  { id := .int 1, vector := [1, 0], payload_text := "a", payload_metadata := [] }

/-- A two-dimensional collection holding one point. -/
def dbEx : QdrantVectorDB :=
  { collection_name := "document_search", vector_size := 2, store := [pEx] }

/-- A two-dimensional empty collection. -/
def dbW : QdrantVectorDB :=
  { collection_name := "document_search", vector_size := 2, store := [] }

/-- A document whose vector has the wrong length for `dbW`. -/
def docBad : QDoc := { vector := [1], text := "t" }

/-- First id-less batch for the upsert-overwrite witness. -/
def docs1W : List QDoc :=
  [{ vector := [1, 0], text := "a" }, { vector := [0, 1], text := "b" }]

/-- Second batch: one id-less document and one carrying the falsy id `0`. -/
def docs2W : List QDoc :=
  [{ vector := [1, 1], text := "c" },
   { id := some (.int 0), vector := [0, 1], text := "d" }]

/-- A `/documents` body carrying an explicitly empty text embedding. -/
def inDocW : InDocument := { text := "hello", text_embedding := some [] }

/-- A connection oracle that always fails. -/
def oracleBad : Nat → Except String Unit := fun _ => .error "refused"

/-- A connection oracle that always succeeds. -/
def oracleOk : Nat → Except String Unit := fun _ => .ok ()

/-- An already-connected pymilvus state. -/
def stOn : MilvusConnState := { connected := true }

/-- A disconnected pymilvus state. -/
def stOff : MilvusConnState := { connected := false }

/-! ### C1 — dimension mismatch on insert and search -/

/-- C1 counterexample: inserting a 1-dimensional vector into the
512-dimensional collection, and searching with it, both fail with the
repository's `VectorDBError` (wrapping the backend's dimension message),
not with a `DimensionError` as the claim states — no such class exists in
the code. -/
theorem c1_dim_mismatch_not_dimensionerror :
    dbW.insert [docBad] =
      .error (.vectorDBError ("Insert operation failed: " ++ dimErrMsg 2 1)) ∧
    (PyErr.vectorDBError ("Insert operation failed: " ++ dimErrMsg 2 1)).isDimensionError
      = false ∧
    dbW.search simEx [1] 5 =
      .error (.vectorDBError ("Search operation failed: " ++ dimErrMsg 2 1)) ∧
    (PyErr.vectorDBError ("Search operation failed: " ++ dimErrMsg 2 1)).isDimensionError
      = false :=
  ⟨rfl, rfl, rfl, rfl⟩

/-- C1 amended: for every vector whose length differs from the collection's
configured dimension, insert of a document carrying it and search with it
as the query fail — the backend rejects the vector with a message naming
expected vs actual length and the wrapper raises `VectorDBError` (the
code defines no `DimensionError`) — and no record is written (insert
produces no updated store); the `/documents` handler likewise surfaces a
backend rejection as HTTP 500. -/
theorem c1_dim_mismatch_rejected_no_write (db : QdrantVectorDB) (doc : QDoc)
    (sim : Vec → Vec → ℚ) (q : Vec) (k : Nat)
    (hd : doc.vector.length ≠ db.vector_size) (hq : q.length ≠ db.vector_size) :
    db.insert [doc] =
      .error (.vectorDBError ("Insert operation failed: " ++
        dimErrMsg db.vector_size doc.vector.length)) ∧
    db.search sim q k =
      .error (.vectorDBError ("Search operation failed: " ++
        dimErrMsg db.vector_size q.length)) ∧
    (∀ (encode : String → Vec) (d : InDocument) (e : String),
      addDocumentEndpoint encode (fun _ => .error e) d =
        .error (.httpException 500 ("Document insertion failed: " ++ e))) := by
  refine ⟨?_, ?_, fun _ _ _ => rfl⟩
  · have hb : (doc.vector.length != db.vector_size) = true := by
      simpa using hd
    simp [QdrantVectorDB.insert, qdrantUpsert, buildPoints, List.find?, mkPoint, hb]
  · simp [QdrantVectorDB.search, hq]

/-- Witness for the amended C1 theorem at a concrete wrong-length vector. -/
theorem c1_dim_mismatch_rejected_no_write_witness :
    (docBad.vector.length ≠ dbW.vector_size ∧ ([1, 2, 3] : Vec).length ≠ dbW.vector_size) ∧
    (dbW.insert [docBad] =
      .error (.vectorDBError ("Insert operation failed: " ++
        dimErrMsg dbW.vector_size docBad.vector.length)) ∧
    dbW.search simEx [1, 2, 3] 5 =
      .error (.vectorDBError ("Search operation failed: " ++
        dimErrMsg dbW.vector_size ([1, 2, 3] : Vec).length)) ∧
    (∀ (encode : String → Vec) (d : InDocument) (e : String),
      addDocumentEndpoint encode (fun _ => .error e) d =
        .error (.httpException 500 ("Document insertion failed: " ++ e)))) :=
  ⟨⟨by decide, by decide⟩,
    c1_dim_mismatch_rejected_no_write dbW docBad simEx [1, 2, 3] 5 (by decide) (by decide)⟩

/-! ### C3 — index creation parameters -/

/-- C3: on startup with the collection absent, `_setup_collection` issues
one `create_index` call per vector field, but only the `text_embedding`
index is built with the configured index parameters: the
`image_embedding` index is created with the dict from
`get_search_params()`, which carries no `index_type` (index family) and
whose `params` holds `nprobe`, not the fan-out parameter `nlist`. -/
theorem c3_image_index_misses_index_params (idx : IndexSection) (srch : SearchSection) :
    (setup_collection_indexes idx srch false).map CreateIndexCall.field_name =
      ["text_embedding", "image_embedding"] ∧
    ((setup_collection_indexes idx srch false).map
        (fun c => List.lookup "index_type" c.index_params)) =
      [some (.str idx.index_type), none] ∧
    ((setup_collection_indexes idx srch false).map
        (fun c => List.lookup "params" c.index_params)) =
      [some (.dict [("nlist", .int idx.nlist)]),
       some (.dict [("nprobe", .int srch.nprobe)])] :=
  ⟨rfl, rfl, rfl⟩

/-! ### C4 — modality selection -/

/-- C4: the modality argument is not wired through: `VectorDBService.search`
hard-codes the `text_embedding` field for every call, and the `/search`
handler passes a `search_type` keyword that the method does not accept, so
both the text and the image path of the endpoint fail with HTTP 500
instead of selecting a vector field. -/
theorem c4_modality_not_wired :
    (∀ (q : Vec) (k : Nat), (searchParamsDict q k).anns_field = "text_embedding") ∧
    searchBody encodeEx fetchOk dbSearchEx { query := some "laptop" } =
      .error (.typeError "search() got an unexpected keyword argument search_type") ∧
    searchBody encodeEx fetchOk dbSearchEx { image_url := some "http://img" } =
      .error (.typeError "search() got an unexpected keyword argument search_type") ∧
    searchEndpoint encodeEx fetchOk dbSearchEx { query := some "laptop" } =
      .error (.httpException 500 "Search failed") :=
  ⟨fun _ _ => rfl, rfl, rfl, rfl⟩

/-! ### C5 — missing query and imageUrl -/

/-- C5: a `/search` request with neither `query` nor `image_url` set makes
the handler raise `HTTPException(400)` inside its own `try` block, but the
blanket `except Exception` catches that and replaces it with
`HTTPException(500, "Search failed")`: the endpoint responds 500, not the
400 the claim states. -/
theorem c5_missing_both_fields_returns_500 :
    searchBody encodeEx fetchOk dbSearchEx {} =
      .error (.httpException 400 "Either query or image_url must be provided") ∧
    searchEndpoint encodeEx fetchOk dbSearchEx {} =
      .error (.httpException 500 "Search failed") :=
  ⟨rfl, rfl⟩

/-! ### C8 — image-embedding failure fallbacks -/

/-- C8: during ingestion (`amazon_scraper.get_image_embedding`) a missing
image or a failed fetch/inference yields the 512-length zero vector (512
being the collection's configured dimension), so the batch continues; at
query time (`main.get_image_embedding`) a failure raises
`HTTPException(400)` — no zero fallback — but the `/search` handler's
blanket `except Exception` converts that client error into HTTP 500, so
the request does not fail as a client error as the claim states. -/
theorem c8_image_embedding_failure_paths :
    (∀ url, amazonGetImageEmbedding fetchFail url = List.replicate 512 0) ∧
    amazonGetImageEmbedding fetchOk "" = List.replicate 512 0 ∧
    mainGetImageEmbedding fetchFail "http://img" =
      .error (.httpException 400 "Image processing failed: connection refused") ∧
    searchBody encodeEx fetchFail dbSearchEx { image_url := some "http://img" } =
      .error (.httpException 400 "Image processing failed: connection refused") ∧
    searchEndpoint encodeEx fetchFail dbSearchEx { image_url := some "http://img" } =
      .error (.httpException 500 "Search failed") ∧
    ({} : QdrantVectorDB).vector_size = 512 := by
  refine ⟨?_, rfl, rfl, rfl, rfl, rfl⟩
  intro url
  unfold amazonGetImageEmbedding
  split
  · rfl
  · rfl

/-! ### C2 — top-k search shape -/

/-- C2: for every positive `top_k` and every query vector of the
collection's dimension, `QdrantVectorDB.search` succeeds and returns at
most `top_k` hits ordered by descending similarity score (each hit being
the four-field record `{text, metadata, score, id}` built on lines 46-51),
and on an empty collection it returns the empty list rather than an
error. -/
theorem c2_search_topk_sorted (db : QdrantVectorDB) (sim : Vec → Vec → ℚ)
    (q : Vec) (k : Nat) (hk : 0 < k) (hq : q.length = db.vector_size) :
    ∃ hits, db.search sim q k = .ok hits ∧ hits.length ≤ k ∧
      List.Sorted (fun a b : ℚ => b ≤ a) (hits.map Hit.score) ∧
      (db.store = [] → hits = []) := by
  have hcond : ¬ q.length ≠ db.vector_size := not_ne_iff.mpr hq
  refine ⟨((((db.store.map (fun p => (p, sim q p.vector)))).insertionSort
      scoreGe).take k).map toHit, ?_, ?_, ?_, ?_⟩
  · unfold QdrantVectorDB.search
    rw [if_neg hcond]
  · rw [List.length_map, List.length_take]
    exact min_le_left _ _
  · have h1 : List.Sorted scoreGe
        ((db.store.map (fun p => (p, sim q p.vector))).insertionSort scoreGe) :=
      List.sorted_insertionSort scoreGe _
    have h2 : List.Sorted scoreGe
        (((db.store.map (fun p => (p, sim q p.vector))).insertionSort scoreGe).take k) :=
      List.Pairwise.sublist (List.take_sublist _ _) h1
    rw [List.map_map]
    exact List.pairwise_map.mpr h2
  · intro h
    simp [h]

/-- Witness for C2 on a concrete one-point two-dimensional collection. -/
theorem c2_search_topk_sorted_witness :
    (0 < 3 ∧ ([1, 0] : Vec).length = dbEx.vector_size) ∧
    (∃ hits, dbEx.search simEx [1, 0] 3 = .ok hits ∧ hits.length ≤ 3 ∧
      List.Sorted (fun a b : ℚ => b ≤ a) (hits.map Hit.score) ∧
      (dbEx.store = [] → hits = [])) :=
  ⟨⟨by decide, by decide⟩, c2_search_topk_sorted dbEx simEx [1, 0] 3 (by decide) (by decide)⟩

/-! ### C7 — health checks -/

/-- C7 counterexample: the `GET /health` handler in `main.py` probes the
backend with no exception handling, so on a disconnected backend it
propagates the probe's exception instead of returning an `unhealthy`
status — contradicting the claim that health checking never throws for
every backend state. -/
theorem c7_health_endpoint_raises_when_disconnected :
    healthEndpoint "products" (.error "connection refused") (.ok 0) =
      .error (.backendError "connection refused") :=
  rfl

/-- C7 amended: `QdrantVectorDB.health_check` never throws: it is a total
function whose status is `healthy` or `unhealthy`, and when the backend
probe fails it returns `unhealthy` together with the probe's error message
(non-empty whenever that message is); the `GET /health` endpoint in
`main.py`, by contrast, performs unguarded probes and propagates probe
failures instead of reporting `unhealthy`. -/
theorem c7_health_check_total_degrades (db : QdrantVectorDB)
    (probe : Except String Nat) (e : String) (he : e ≠ "") :
    ((db.health_check probe).status = "healthy" ∨
      (db.health_check probe).status = "unhealthy") ∧
    db.health_check (.error e) =
      { status := "unhealthy", collection_stats := none, error := some e } ∧
    (db.health_check (.error e)).error ≠ some "" ∧
    (∀ msg, healthEndpoint db.collection_name (.error msg) (.ok 0) =
      .error (.backendError msg)) := by
  refine ⟨?_, rfl, ?_, fun _ => rfl⟩
  · cases probe with
    | ok n => exact Or.inl rfl
    | error e => exact Or.inr rfl
  · simp [QdrantVectorDB.health_check, he]

/-- Witness for the amended C7 theorem at a concrete failing probe. -/
theorem c7_health_check_total_degrades_witness :
    ("connection refused" ≠ "") ∧
    (((dbW.health_check (.error "x")).status = "healthy" ∨
      (dbW.health_check (.error "x")).status = "unhealthy") ∧
    dbW.health_check (.error "connection refused") =
      { status := "unhealthy", collection_stats := none,
        error := some "connection refused" } ∧
    (dbW.health_check (.error "connection refused")).error ≠ some "" ∧
    (∀ msg, healthEndpoint dbW.collection_name (.error msg) (.ok 0) =
      .error (.backendError msg))) :=
  ⟨by decide, c7_health_check_total_degrades dbW (.error "x") "connection refused" (by decide)⟩

/-! ### C10 — falsy text embedding is recomputed -/

/-- C10: in the `/documents` handler, a supplied-but-empty `text_embedding`
is falsy, so `document.text_embedding or embedder.encode(document.text)`
discards it: the built document is identical to the one built with the
field absent, its stored embedding is the freshly encoded text, and the
insertion succeeds — a caller can never store an explicitly empty text
embedding. -/
theorem c10_empty_text_embedding_recomputed (encode : String → Vec) (d : InDocument)
    (h : d.text_embedding = some []) :
    addDocumentDoc encode d = addDocumentDoc encode { d with text_embedding := none } ∧
    (addDocumentDoc encode d).text_embedding = encode d.text ∧
    addDocumentEndpoint encode (fun _ => .ok ()) d = .ok "success" := by
  refine ⟨?_, ?_, rfl⟩
  · simp [addDocumentDoc, listTruthy, h]
  · simp [addDocumentDoc, listTruthy, h]

/-- Witness for C10 at a concrete document carrying `[]` as embedding. -/
theorem c10_empty_text_embedding_recomputed_witness :
    (inDocW.text_embedding = some []) ∧
    (addDocumentDoc encodeEx inDocW =
      addDocumentDoc encodeEx { inDocW with text_embedding := none } ∧
    (addDocumentDoc encodeEx inDocW).text_embedding = encodeEx inDocW.text ∧
    addDocumentEndpoint encodeEx (fun _ => .ok ()) inDocW = .ok "success") :=
  ⟨by decide, c10_empty_text_embedding_recomputed encodeEx inDocW (by decide)⟩

/-! ### C6 — connection retry -/

/-- The retry loop never makes more attempts than it has fuel. -/
theorem retryLoop_attempts_le (oracle : Nat → Except String Unit)
    (st : MilvusConnState) : ∀ (fuel k : Nat), (retryLoop oracle st k fuel).attempts ≤ fuel
  | 0, _ => Nat.le_refl 0
  | fuel + 1, k => by
    unfold retryLoop
    cases connectOnceWrapped oracle st k with
    | ok st' => exact Nat.succ_le_succ (Nat.zero_le fuel)
    | error e =>
      by_cases hf : fuel = 0
      · simp [hf]
      · simp only [hf, if_false]
        exact Nat.succ_le_succ (retryLoop_attempts_le oracle st fuel (k + 1))

/-- C6 counterexample: when every attempt fails, `_connect_with_retry`
fails with the repository's `VectorDBError` carrying the last cause — not
with Python's `ConnectionError` as the claim states. -/
theorem c6_exhaustion_not_connectionerror :
    (connect_with_retry oracleBad stOff).result =
      .error (.vectorDBError ("Connection failed: " ++ "refused")) ∧
    (PyErr.vectorDBError ("Connection failed: " ++ "refused")).isConnectionError = false :=
  ⟨rfl, rfl⟩

/-- C6 amended: `_connect_with_retry` retries a transient connection
failure with exponential backoff (`backoff.expo` waits `2 ^ k`, jitter
aside) making at most 3 attempts in total; if every attempt fails it
fails with `VectorDBError` (the repository's class — not Python's builtin
`ConnectionError`) carrying the last underlying cause's message; and
calling it while the pymilvus alias is already connected is a no-op
succeeding on the first attempt with the state unchanged. -/
theorem c6_connect_retry_behaviour (oracle oracle2 : Nat → Except String Unit)
    (st st2 : MilvusConnState) (e0 e1 e2 : String)
    (hc : st.connected = true) (hnc : st2.connected = false)
    (h0 : oracle2 0 = .error e0) (h1 : oracle2 1 = .error e1)
    (h2 : oracle2 2 = .error e2) :
    connect_with_retry oracle st = { result := .ok st, attempts := 1, waits := [] } ∧
    (∀ (o : Nat → Except String Unit) (s : MilvusConnState),
      (connect_with_retry o s).attempts ≤ 3) ∧
    connect_with_retry oracle2 st2 =
      { result := .error (.vectorDBError ("Connection failed: " ++ e2)),
        attempts := 3, waits := [2 ^ 0, 2 ^ 1] } := by
  refine ⟨?_, fun o s => retryLoop_attempts_le o s 3 0, ?_⟩
  · simp [connect_with_retry, retryLoop, connectOnceWrapped, milvusConnect, hc]
  · simp [connect_with_retry, retryLoop, connectOnceWrapped, milvusConnect, hnc,
      h0, h1, h2, backoffExpo]

/-- Witness for the amended C6 theorem: a connected state and an oracle
that fails on every attempt. -/
theorem c6_connect_retry_behaviour_witness :
    (stOn.connected = true ∧ stOff.connected = false ∧
      oracleBad 0 = .error "refused" ∧ oracleBad 1 = .error "refused" ∧
      oracleBad 2 = .error "refused") ∧
    (connect_with_retry oracleOk stOn = { result := .ok stOn, attempts := 1, waits := [] } ∧
    (∀ (o : Nat → Except String Unit) (s : MilvusConnState),
      (connect_with_retry o s).attempts ≤ 3) ∧
    connect_with_retry oracleBad stOff =
      { result := .error (.vectorDBError ("Connection failed: " ++ "refused")),
        attempts := 3, waits := [2 ^ 0, 2 ^ 1] }) :=
  ⟨⟨rfl, rfl, rfl, rfl, rfl⟩,
    c6_connect_retry_behaviour oracleOk oracleBad stOn stOff
      "refused" "refused" "refused" rfl rfl rfl rfl rfl⟩

/-! ### C9 — positional ids and upsert overwrite -/

/-- `find?` by an id over the overwrite map finds the new point whenever
the id was present. -/
theorem find?_map_upsert (p : PointStruct) :
    ∀ store : List PointStruct, store.any (fun q => q.id == p.id) = true →
      (store.map (fun q => if q.id == p.id then p else q)).find?
        (fun r => r.id == p.id) = some p
  | [], h => by simp at h
  | q :: qs, h => by
    by_cases hq : (q.id == p.id) = true
    · rw [List.map_cons, if_pos hq, List.find?_cons, beq_self_eq_true]
    · have hqf : (q.id == p.id) = false := by simpa using hq
      have h' : qs.any (fun r => r.id == p.id) = true := by
        rw [List.any_cons, hqf, Bool.false_or] at h
        exact h
      rw [List.map_cons, if_neg hq, List.find?_cons, hqf]
      exact find?_map_upsert p qs h'

/-- `find?` by a different id is unaffected by the overwrite map. -/
theorem find?_map_upsert_other (p : PointStruct) (i : PyId) (h : p.id ≠ i) :
    ∀ store : List PointStruct,
      (store.map (fun q => if q.id == p.id then p else q)).find?
        (fun r => r.id == i) = store.find? (fun r => r.id == i)
  | [] => rfl
  | q :: qs => by
    have hpi : (p.id == i) = false := beq_eq_false_iff_ne.mpr h
    by_cases hq : (q.id == p.id) = true
    · have hqi : (q.id == i) = false := by rw [eq_of_beq hq]; exact hpi
      rw [List.map_cons, if_pos hq, List.find?_cons, List.find?_cons, hpi, hqi]
      exact find?_map_upsert_other p i h qs
    · rw [List.map_cons, if_neg hq, List.find?_cons, List.find?_cons]
      cases htq : (q.id == i) with
      | false => exact find?_map_upsert_other p i h qs
      | true => rfl

/-- Upserting a point makes it the record stored under its id, whether or
not that id was already present: upsert overwrites. -/
theorem findById_upsertPoint_self (store : List PointStruct) (p : PointStruct) :
    findById (upsertPoint store p) p.id = some p := by
  unfold findById upsertPoint
  by_cases h : store.any (fun q => q.id == p.id) = true
  · rw [if_pos h]
    exact find?_map_upsert p store h
  · rw [if_neg h]
    have hb : store.any (fun q => q.id == p.id) = false := by simpa using h
    have hnone : store.find? (fun q => q.id == p.id) = none := by
      rw [List.find?_eq_none]
      intro x hx hxx
      have hany : store.any (fun q => q.id == p.id) = true :=
        List.any_eq_true.mpr ⟨x, hx, hxx⟩
      rw [hany] at hb
      cases hb
    rw [List.find?_append, hnone]
    simp [List.find?_cons]

/-- Upserting a point does not disturb records stored under other ids. -/
theorem findById_upsertPoint_other (store : List PointStruct) (p : PointStruct)
    (i : PyId) (h : p.id ≠ i) :
    findById (upsertPoint store p) i = findById store i := by
  unfold findById upsertPoint
  by_cases ha : store.any (fun q => q.id == p.id) = true
  · rw [if_pos ha]
    exact find?_map_upsert_other p i h store
  · rw [if_neg ha, List.find?_append]
    have hp : [p].find? (fun q => q.id == i) = none := by
      simp [List.find?_cons, beq_eq_false_iff_ne.mpr h]
    rw [hp]
    cases hst : store.find? (fun q => q.id == i) <;> simp

/-- A batch none of whose points carries the id leaves the record stored
under that id unchanged. -/
theorem findById_upsertPoints_not_mem (i : PyId) :
    ∀ (ps store : List PointStruct), (∀ p ∈ ps, p.id ≠ i) →
      findById (upsertPoints store ps) i = findById store i
  | [], _, _ => rfl
  | p :: rest, store, h => by
    have step : upsertPoints store (p :: rest) = upsertPoints (upsertPoint store p) rest := rfl
    rw [step,
      findById_upsertPoints_not_mem i rest (upsertPoint store p)
        (fun q hq => h q (List.mem_cons_of_mem p hq)),
      findById_upsertPoint_other store p i (h p (List.mem_cons_self p rest))]

/-- After upserting a batch with pairwise-distinct ids, each batch point is
the record stored under its id. -/
theorem findById_upsertPoints_mem :
    ∀ (ps store : List PointStruct) (p : PointStruct),
      p ∈ ps → (ps.map PointStruct.id).Nodup →
      findById (upsertPoints store ps) p.id = some p
  | [], _, _, hp, _ => absurd hp (List.not_mem_nil _)
  | q :: rest, store, p, hp, hnd => by
    have step : upsertPoints store (q :: rest) = upsertPoints (upsertPoint store q) rest := rfl
    rw [step]
    have hnd' : (q.id ∉ rest.map PointStruct.id) ∧ (rest.map PointStruct.id).Nodup :=
      List.nodup_cons.mp (by simpa using hnd)
    rcases List.mem_cons.mp hp with rfl | hmem
    · have hni : ∀ r ∈ rest, r.id ≠ p.id := by
        intro r hr heq
        exact hnd'.1 (heq ▸ List.mem_map_of_mem PointStruct.id hr)
      rw [findById_upsertPoints_not_mem p.id rest (upsertPoint store p) hni]
      exact findById_upsertPoint_self store p
    · exact findById_upsertPoints_mem rest (upsertPoint store q) p hmem hnd'.2

/-- Shape of the built point list at each index. -/
theorem buildPoints_getElem? :
    ∀ (docs : List QDoc) (k idx : Nat),
      (buildPoints k docs)[idx]? = (docs[idx]?).map (fun d => mkPoint d (k + idx))
  | [], _, idx => by simp [buildPoints]
  | d :: rest, k, 0 => by simp [buildPoints]
  | d :: rest, k, idx + 1 => by
    have harith : k + 1 + idx = k + (idx + 1) := by omega
    simp [buildPoints, List.getElem?_cons_succ, buildPoints_getElem? rest (k + 1) idx, harith]

/-- A falsy id resolves to the positional id. -/
theorem resolveId_falsy (d : QDoc) (k : Nat) (h : idFalsy d.id = true) :
    resolveId d k = .int k := by
  unfold resolveId
  cases hd : d.id with
  | none => rfl
  | some i =>
    rw [hd] at h
    simp only [idFalsy] at h
    simp [h]

/-- With every id falsy, the built points carry the consecutive positional
ids starting at `k`. -/
theorem buildPoints_ids_falsy :
    ∀ (docs : List QDoc) (k : Nat), (∀ d ∈ docs, idFalsy d.id = true) →
      (buildPoints k docs).map PointStruct.id =
        (List.range' k docs.length).map (fun n : Nat => PyId.int (n : Int))
  | [], _, _ => rfl
  | d :: rest, k, h => by
    have hd : (mkPoint d k).id = .int k :=
      resolveId_falsy d k (h d (List.mem_cons_self d rest))
    simp only [buildPoints, List.map_cons, List.length_cons, List.range'_succ]
    rw [hd, buildPoints_ids_falsy rest (k + 1) (fun x hx => h x (List.mem_cons_of_mem d hx))]

/-- With every id falsy, the built points have pairwise distinct ids. -/
theorem nodup_ids_buildPoints (docs : List QDoc)
    (h : ∀ d ∈ docs, idFalsy d.id = true) :
    ((buildPoints 0 docs).map PointStruct.id).Nodup := by
  rw [buildPoints_ids_falsy docs 0 h]
  refine List.Nodup.map ?_ (List.nodup_range' 0 docs.length)
  intro a b hab
  have hib := PyId.int.inj hab
  exact_mod_cast hib

/-- Every built point comes from some batch document. -/
theorem mem_buildPoints :
    ∀ (docs : List QDoc) (k : Nat) (p : PointStruct), p ∈ buildPoints k docs →
      ∃ d ∈ docs, ∃ i, p = mkPoint d i
  | [], _, _, hp => absurd hp (List.not_mem_nil _)
  | d :: rest, k, p, hp => by
    rcases List.mem_cons.mp hp with rfl | hmem
    · exact ⟨d, List.mem_cons_self d rest, k, rfl⟩
    · obtain ⟨d', hd', i, hi⟩ := mem_buildPoints rest (k + 1) p hmem
      exact ⟨d', List.mem_cons_of_mem d hd', i, hi⟩

/-- Insert succeeds when every vector has the collection's dimension, and
its effect is the batch upsert of the built points. -/
theorem insert_ok (db : QdrantVectorDB) (docs : List QDoc)
    (hdim : ∀ d ∈ docs, d.vector.length = db.vector_size) :
    db.insert docs = .ok { db with store := upsertPoints db.store (buildPoints 0 docs) } := by
  unfold QdrantVectorDB.insert qdrantUpsert
  have hfind : (buildPoints 0 docs).find?
      (fun p => p.vector.length != db.vector_size) = none := by
    rw [List.find?_eq_none]
    intro p hp
    obtain ⟨d, hd, i, rfl⟩ := mem_buildPoints docs 0 p hp
    simp [mkPoint, hdim d hd]
  rw [hfind]

/-- C9: in `QdrantVectorDB.insert`, a document whose id is absent or falsy
(including the integer id 0) gets its zero-based batch position as its
stored id; upsert semantics mean a point stored under an existing id
overwrites the record; hence two id-less batches inserted in succession
overwrite each other at the shared positional ids — after the second
insert, each positional id holds the second batch's document. -/
theorem c9_positional_ids_and_upsert (db : QdrantVectorDB) (docs1 docs2 : List QDoc)
    (hf1 : ∀ d ∈ docs1, idFalsy d.id = true) (hf2 : ∀ d ∈ docs2, idFalsy d.id = true)
    (hv1 : ∀ d ∈ docs1, d.vector.length = db.vector_size)
    (hv2 : ∀ d ∈ docs2, d.vector.length = db.vector_size) :
    (∀ (d : QDoc) (k : Nat), idFalsy d.id = true → (mkPoint d k).id = .int k) ∧
    (idFalsy none = true ∧ idFalsy (some (.int 0)) = true) ∧
    (∀ (store : List PointStruct) (p : PointStruct),
      findById (upsertPoint store p) p.id = some p) ∧
    (∃ db1 db2, db.insert docs1 = .ok db1 ∧ db1.insert docs2 = .ok db2 ∧
      (∀ (idx : Nat) (doc : QDoc), docs1[idx]? = some doc →
        findById db1.store (.int idx) = some (mkPoint doc idx)) ∧
      (∀ (idx : Nat) (doc : QDoc), docs2[idx]? = some doc →
        findById db2.store (.int idx) = some (mkPoint doc idx))) := by
  refine ⟨fun d k h => resolveId_falsy d k h, ⟨rfl, rfl⟩,
    fun store p => findById_upsertPoint_self store p,
    ⟨_, _, insert_ok db docs1 hv1, insert_ok _ docs2 hv2, ?_, ?_⟩⟩
  · intro idx doc hidx
    have hbp : (buildPoints 0 docs1)[idx]? = some (mkPoint doc idx) := by
      rw [buildPoints_getElem? docs1 0 idx, hidx]
      simp
    have hmem : mkPoint doc idx ∈ buildPoints 0 docs1 := List.getElem?_mem hbp
    have hdoc : doc ∈ docs1 := List.getElem?_mem hidx
    have hid : (mkPoint doc idx).id = .int idx := resolveId_falsy doc idx (hf1 doc hdoc)
    have hres := findById_upsertPoints_mem (buildPoints 0 docs1) db.store
      (mkPoint doc idx) hmem (nodup_ids_buildPoints docs1 hf1)
    rw [hid] at hres
    exact hres
  · intro idx doc hidx
    have hbp : (buildPoints 0 docs2)[idx]? = some (mkPoint doc idx) := by
      rw [buildPoints_getElem? docs2 0 idx, hidx]
      simp
    have hmem : mkPoint doc idx ∈ buildPoints 0 docs2 := List.getElem?_mem hbp
    have hdoc : doc ∈ docs2 := List.getElem?_mem hidx
    have hid : (mkPoint doc idx).id = .int idx := resolveId_falsy doc idx (hf2 doc hdoc)
    have hres := findById_upsertPoints_mem (buildPoints 0 docs2)
      (upsertPoints db.store (buildPoints 0 docs1))
      (mkPoint doc idx) hmem (nodup_ids_buildPoints docs2 hf2)
    rw [hid] at hres
    exact hres

/-- Witness for C9 on two concrete id-less batches (the second carrying
the falsy integer id 0). -/
theorem c9_positional_ids_and_upsert_witness :
    ((∀ d ∈ docs1W, idFalsy d.id = true) ∧ (∀ d ∈ docs2W, idFalsy d.id = true) ∧
     (∀ d ∈ docs1W, d.vector.length = dbW.vector_size) ∧
     (∀ d ∈ docs2W, d.vector.length = dbW.vector_size)) ∧
    ((∀ (d : QDoc) (k : Nat), idFalsy d.id = true → (mkPoint d k).id = .int k) ∧
     (idFalsy none = true ∧ idFalsy (some (.int 0)) = true) ∧
     (∀ (store : List PointStruct) (p : PointStruct),
       findById (upsertPoint store p) p.id = some p) ∧
     (∃ db1 db2, dbW.insert docs1W = .ok db1 ∧ db1.insert docs2W = .ok db2 ∧
       (∀ (idx : Nat) (doc : QDoc), docs1W[idx]? = some doc →
         findById db1.store (.int idx) = some (mkPoint doc idx)) ∧
       (∀ (idx : Nat) (doc : QDoc), docs2W[idx]? = some doc →
         findById db2.store (.int idx) = some (mkPoint doc idx)))) :=
  ⟨⟨by decide, by decide, by decide, by decide⟩,
    c9_positional_ids_and_upsert dbW docs1W docs2W
      (by decide) (by decide) (by decide) (by decide)⟩

